import Mathlib

/-!
Verification of the careers backend (`main.py`, `schemas.py`).

The code is shallowly embedded: MongoDB/Python values become the inductive
type `BVal`, Python dicts become association lists (`Doc`), and each route
handler becomes a Lean function translated line by line from `main.py`.
The document-store adapter (`database.py`) is not part of the provided
sources; the few operations the handlers use (`create_document` and the
collection accessors) are modelled from the specification of the Document
Store Adapter (spec section 4.2) and are marked as such.
-/

/-- A stored/wire value: Python `None`, booleans, integers, strings,
BSON `ObjectId`s (carrying their 24-hex-character string form), raw byte
strings, lists and nested documents. -/
inductive BVal where
  | null : BVal
  | bool (b : Bool) : BVal
  | int (n : Int) : BVal
  | str (s : String) : BVal
  | oid (s : String) : BVal
  | bytes (bs : List Nat) : BVal
  | arr (vs : List BVal) : BVal
  | doc (fs : List (String × BVal)) : BVal

/-- A Python dict / Mongo document: an ordered association list.
Documents built by the system always have distinct keys. -/
abbrev Doc := List (String × BVal)

/-- `d.get(k)` / `d[k]`: the value at key `k`, if present. -/
def dGet (d : Doc) (k : String) : Option BVal :=
  match d with
  | [] => none
  | (k', v) :: rest => if k' = k then some v else dGet rest k

/-- `d.pop(k)`'s effect on the dict: remove the binding for `k`. -/
def dRemove (d : Doc) (k : String) : Doc :=
  d.filter (fun kv => kv.1 ≠ k)

/-- `d[k] = v`: overwrite in place if the key exists, else append. -/
def dSet (d : Doc) (k : String) (v : BVal) : Doc :=
  match d with
  | [] => [(k, v)]
  | (k', v') :: rest => if k' = k then (k, v) :: rest else (k', v') :: dSet rest k v

/-- Python truthiness of a value (`if v:`). -/
def truthy : BVal → Bool
  | .null => false
  | .bool b => b
  | .int n => n ≠ 0
  | .str s => s ≠ ""
  | .oid _ => true
  | .bytes bs => !bs.isEmpty
  | .arr vs => !vs.isEmpty
  | .doc fs => !fs.isEmpty

mutual
/-- Python `repr` of a value (used by `str` on containers). -/
def pyRepr : BVal → String
  | .null => "None"
  | .bool true => "True"
  | .bool false => "False"
  | .int n => toString n
  | .str s => "\x27" ++ s ++ "\x27"
  | .oid s => "ObjectId(\x27" ++ s ++ "\x27)"
  | .bytes bs => "b\x27" ++ String.mk (bs.map Char.ofNat) ++ "\x27"
  | .arr vs => "[" ++ pyReprSeq vs ++ "]"
  | .doc fs => "\x7b" ++ pyReprFields fs ++ "\x7d"

/-- Comma-separated `repr`s of the elements of a list. -/
def pyReprSeq : List BVal → String
  | [] => ""
  | [v] => pyRepr v
  | v :: rest => pyRepr v ++ ", " ++ pyReprSeq rest

/-- Comma-separated `repr`s of the entries of a dict. -/
def pyReprFields : List (String × BVal) → String
  | [] => ""
  | [(k, v)] => "\x27" ++ k ++ "\x27: " ++ pyRepr v
  | (k, v) :: rest => "\x27" ++ k ++ "\x27: " ++ pyRepr v ++ ", " ++ pyReprFields rest
end

/-- Python `str` of a value. `str(ObjectId)` is its 24-hex string;
`str` of a string is itself; containers/others fall back to `repr`. -/
def pyStr : BVal → String
  | .str s => s
  | .oid s => s
  | v => pyRepr v

/-- One step of `serialize_doc`'s conversion loop on a single value:
`if isinstance(v, ObjectId): doc[k] = str(v)`. -/
def convV : BVal → BVal
  | .oid s => .str s
  | v => v

/-- The `for k, v in list(doc.items())` loop of `serialize_doc`:
convert every top-level `ObjectId` value to its string form. -/
def convTop (d : Doc) : Doc :=
  d.map (fun kv => (kv.1, convV kv.2))

/-- The `_id` renaming step of `serialize_doc`:
`if doc.get("_id"): doc["id"] = str(doc.pop("_id"))`. -/
def renameId (d : Doc) : Doc :=
  match dGet d "_id" with
  | some v => if truthy v then dSet (dRemove d "_id") "id" (.str (pyStr v)) else d
  | none => d

/-- `serialize_doc` from `main.py` (lines 23-33): empty input passes
through; otherwise the `_id` field is popped and re-added as a string
under `id`, then every remaining top-level `ObjectId` value is
converted to a string. -/
def serialize_doc (d : Doc) : Doc :=
  if d.isEmpty then d else convTop (renameId d)

/-! ### Basic lemmas about the dict operations and serialization -/

theorem convV_convV (v : BVal) : convV (convV v) = convV v := by
  cases v <;> rfl

theorem convV_not_oid (v : BVal) : ∀ s, convV v ≠ BVal.oid s := by
  cases v <;> simp [convV]

theorem convTop_convTop (d : Doc) : convTop (convTop d) = convTop d := by
  induction d with
  | nil => rfl
  | cons kv rest ih =>
      simp only [convTop, List.map_cons, List.map_map] at *
      simpa [convV_convV] using ih

theorem dGet_convTop (d : Doc) (k : String) :
    dGet (convTop d) k = (dGet d k).map convV := by
  induction d with
  | nil => rfl
  | cons kv rest ih =>
      by_cases h : kv.1 = k <;> simp [convTop, dGet, h] at * <;> simpa using ih

theorem convTop_isEmpty (d : Doc) : (convTop d).isEmpty = d.isEmpty := by
  cases d <;> rfl

theorem dGet_dSet_ne (d : Doc) (k k' : String) (v : BVal) (h : k' ≠ k) :
    dGet (dSet d k' v) k = dGet d k := by
  induction d with
  | nil => simp [dSet, dGet, h]
  | cons kv rest ih =>
      by_cases hk : kv.1 = k'
      · simp [dSet, hk, dGet, h]
      · simp only [dSet, if_neg hk, dGet]
        by_cases hk2 : kv.1 = k <;> simp [hk2, ih]

theorem dGet_dSet_self (d : Doc) (k : String) (v : BVal) :
    dGet (dSet d k v) k = some v := by
  induction d with
  | nil => simp [dSet, dGet]
  | cons kv rest ih =>
      by_cases hk : kv.1 = k <;> simp [dSet, hk, dGet, ih]

theorem dGet_dRemove_self (d : Doc) (k : String) :
    dGet (dRemove d k) k = none := by
  induction d with
  | nil => rfl
  | cons kv rest ih =>
      by_cases hk : kv.1 = k
      · simpa [dRemove, hk] using ih
      · simpa [dRemove, hk, dGet] using ih

theorem dSet_ne_nil (d : Doc) (k : String) (v : BVal) : dSet d k v ≠ [] := by
  cases d with
  | nil => simp [dSet]
  | cons kv rest => by_cases hk : kv.1 = k <;> simp [dSet, hk]

theorem truthy_false_convV (v : BVal) (h : truthy v = false) : convV v = v := by
  cases v <;> simp_all [truthy, convV]

theorem renameId_ne_nil (d : Doc) (hd : d ≠ []) : renameId d ≠ [] := by
  unfold renameId
  cases hv : dGet d "_id" with
  | none => simpa using hd
  | some v =>
      by_cases ht : truthy v <;> simp [ht, dSet_ne_nil, hd]

theorem dGet_renameId_id (d : Doc) :
    dGet (renameId d) "_id" = none ∨
    (∃ v, dGet d "_id" = some v ∧ truthy v = false ∧ dGet (renameId d) "_id" = some v) := by
  unfold renameId
  cases hv : dGet d "_id" with
  | none => exact Or.inl (by simp [hv])
  | some v =>
      by_cases ht : truthy v
      · refine Or.inl ?_
        simp only [ht, if_pos]
        rw [dGet_dSet_ne _ _ _ _ (by decide), dGet_dRemove_self]
      · exact Or.inr ⟨v, by simp [ht, hv]⟩

theorem renameId_of_get_none (r : Doc) (h : dGet r "_id" = none) :
    renameId r = r := by
  unfold renameId
  rw [h]

theorem renameId_of_get_falsy (r : Doc) (v : BVal)
    (hv : dGet r "_id" = some v) (hf : truthy v = false) : renameId r = r := by
  unfold renameId
  rw [hv]
  simp [hf]

/-- Auxiliary: a second serialization pass leaves the result unchanged. -/
theorem serialize_again (d : Doc) (hd : ¬ d.isEmpty) :
    serialize_doc (convTop (renameId d)) = convTop (renameId d) := by
  have hne : renameId d ≠ [] := renameId_ne_nil d (by simpa [List.isEmpty_iff] using hd)
  have hemp : (convTop (renameId d)).isEmpty = false := by
    rw [convTop_isEmpty]
    simpa [List.isEmpty_iff] using hne
  unfold serialize_doc
  rw [hemp]
  simp only [Bool.false_eq_true, if_false]
  have hmid : renameId (convTop (renameId d)) = convTop (renameId d) := by
    rcases dGet_renameId_id d with hnone | ⟨v, _, hvf, hvget⟩
    · refine renameId_of_get_none _ ?_
      rw [dGet_convTop, hnone]
      rfl
    · refine renameId_of_get_falsy _ v ?_ hvf
      rw [dGet_convTop, hvget]
      simp [truthy_false_convV v hvf]
  rw [hmid, convTop_convTop]

/-! ### Deep and shallow ObjectId detection -/

/-- Is this value itself an `ObjectId`? -/
def isOidV : BVal → Bool
  | .oid _ => true
  | _ => false

mutual
/-- Does this value contain an `ObjectId` at any nesting depth? -/
def hasOidDeep : BVal → Bool
  | .oid _ => true
  | .arr vs => hasOidDeepSeq vs
  | .doc fs => hasOidDeepFields fs
  | _ => false

/-- Does any element of the list contain a nested `ObjectId`? -/
def hasOidDeepSeq : List BVal → Bool
  | [] => false
  | v :: rest => hasOidDeep v || hasOidDeepSeq rest

/-- Does any entry of the field list contain a nested `ObjectId`? -/
def hasOidDeepFields : List (String × BVal) → Bool
  | [] => false
  | (_, v) :: rest => hasOidDeep v || hasOidDeepFields rest
end

/-- Does a document contain an `ObjectId` anywhere, at any depth? -/
def docHasOidDeep (d : Doc) : Bool := hasOidDeepFields d

/-- Does a document have an `ObjectId` as a direct (top-level) value? -/
def topHasOid (d : Doc) : Bool := d.any (fun kv => isOidV kv.2)

theorem isOidV_convV (v : BVal) : isOidV (convV v) = false := by
  cases v <;> rfl

theorem topHasOid_convTop (d : Doc) : topHasOid (convTop d) = false := by
  induction d with
  | nil => rfl
  | cons kv rest ih =>
      simp only [convTop, List.map_cons, topHasOid, List.any_cons] at *
      simp [isOidV_convV, ih]

/-! ### Claim theorems about serialization -/

/-- C2: serialization is idempotent: for every document mapping, applying
`serialize_doc` twice yields the same mapping as applying it once. -/
theorem serialize_doc_idempotent (d : Doc) :
    serialize_doc (serialize_doc d) = serialize_doc d := by
  by_cases hd : d.isEmpty
  · simp [serialize_doc, hd]
  · have h1 : serialize_doc d = convTop (renameId d) := by
      unfold serialize_doc
      simp [hd]
    rw [h1]
    exact serialize_again d hd

/-- A stored document carrying a system-assigned `_id` and a sub-document
that itself embeds an `ObjectId` (the configuration the spec's "defensive
handling" sentence is about). -/
def nestedIdDoc : Doc :=
  [("_id", .oid "64d2aa0c9f1a4e2b8c3d5e6f"),
   ("title", .str "Senior SEO Strategist"),
   ("meta", .doc [("ref", .oid "64d2aa0c9f1a4e2b8c3d5e70")])]

/-- C1 counterexample: serializing a stored document whose sub-structure
embeds an `ObjectId` leaves that identifier unconverted at depth, so the
serialized output still contains a value of the internal identifier type,
contradicting "no value of the internal identifier type remains at any
nesting depth". -/
theorem serialize_doc_nested_oid_remains :
    dGet nestedIdDoc "_id" = some (.oid "64d2aa0c9f1a4e2b8c3d5e6f") ∧
    docHasOidDeep (serialize_doc nestedIdDoc) = true := by
  constructor <;> rfl

/-- C1 (amended): for every document whose `_id` field holds an
`ObjectId`, serialization yields a mapping whose `id` field is the
string form of that identifier and in which no *top-level* value is an
`ObjectId`; identifiers nested inside sub-structures are not converted. -/
theorem serialize_doc_id_and_shallow (d : Doc) (s : String)
    (h : dGet d "_id" = some (.oid s)) :
    dGet (serialize_doc d) "id" = some (.str s) ∧
    topHasOid (serialize_doc d) = false := by
  have hd : d.isEmpty = false := by
    cases d with
    | nil => simp [dGet] at h
    | cons kv rest => rfl
  unfold serialize_doc
  rw [hd]
  simp only [Bool.false_eq_true, if_false]
  refine ⟨?_, topHasOid_convTop _⟩
  rw [dGet_convTop]
  unfold renameId
  rw [h]
  simp only [truthy, if_pos]
  rw [dGet_dSet_self]
  simp [pyStr, convV]

/-- Witness for the amended C1 theorem at a concrete stored document. -/
theorem serialize_doc_id_and_shallow_witness :
    dGet (serialize_doc nestedIdDoc) "id" =
      some (.str "64d2aa0c9f1a4e2b8c3d5e6f") ∧
    topHasOid (serialize_doc nestedIdDoc) = false :=
  serialize_doc_id_and_shallow nestedIdDoc "64d2aa0c9f1a4e2b8c3d5e6f" rfl

/-! ### The document store -/

/-- Is `c` one of the characters accepted in a hex string? -/
def isHexChar (c : Char) : Bool :=
  c.isDigit || (c ≥ 'a' && c ≤ 'f') || (c ≥ 'A' && c ≤ 'F')

/-- `bson.ObjectId.is_valid` on a string argument: exactly 24 hex
characters. -/
def ObjectId_is_valid (s : String) : Bool :=
  s.length = 24 && s.toList.all isHexChar

/-- The two collections the handlers touch, plus the counter from which
the next system-assigned identifier is minted. -/
structure DB where
  job : List Doc
  application : List Doc
  nextOid : Nat

/-- Render a counter value as a 24-hex-character ObjectId string. -/
def oidOfNat (n : Nat) : String :=
  String.mk ((List.range 24).map (fun i =>
    let d := n / 16 ^ (23 - i) % 16
    if d < 10 then Char.ofNat (48 + d) else Char.ofNat (87 + d)))

/-- The identifier the store will assign to the next inserted document. -/
def freshOid (db : DB) : String := oidOfNat db.nextOid

/-- Does this document's `_id` equal the given ObjectId (the Mongo filter
`{"_id": ObjectId(oid)}`)? -/
def idMatches (d : Doc) (oid : String) : Bool :=
  match dGet d "_id" with
  | some (.oid s) => s = oid
  | _ => false

/-- `collection.find_one({"_id": ObjectId(oid)})`: the first document in
insertion order whose `_id` matches. -/
def find_one_by_id (coll : List Doc) (oid : String) : Option Doc :=
  coll.find? (fun d => idMatches d oid)

/-- Modelled from the spec: `create_document` is the Document Store
Adapter's `insert` (spec section 4.2), defined in `database.py`, which is
not among the provided sources. Per the spec it assigns a new unique
identifier, persists the record carrying that identifier, and returns the
identifier; no fields are dropped. -/
def create_document (db : DB) (coll : String) (record : Doc) : DB × String :=
  let oid := freshOid db
  let stored := ("_id", BVal.oid oid) :: record
  if coll = "job" then
    ({ db with job := db.job ++ [stored], nextOid := db.nextOid + 1 }, oid)
  else if coll = "application" then
    ({ db with application := db.application ++ [stored], nextOid := db.nextOid + 1 }, oid)
  else
    ({ db with nextOid := db.nextOid + 1 }, oid)

/-- An HTTP error response: status code and `detail` message. -/
structure HErr where
  status : Nat
  detail : String
deriving DecidableEq

/-! ### GET /careers/jobs/\x7bjob_id\x7d -/

/-- `get_job` from `main.py` (lines 108-120): reject syntactically
invalid ids with 400 before any lookup; look the job up by id; 404 when
absent (or falsy); otherwise the serialized document. -/
def get_job (db : DB) (job_id : String) : Except HErr Doc :=
  if ObjectId_is_valid job_id then
    match find_one_by_id db.job job_id with
    | none => .error ⟨404, "Job not found"⟩
    | some d => if d.isEmpty then .error ⟨404, "Job not found"⟩ else .ok (serialize_doc d)
  else .error ⟨400, "Invalid job id"⟩

theorem find_one_isEmpty_false (coll : List Doc) (oid : String) (d : Doc)
    (h : find_one_by_id coll oid = some d) : d.isEmpty = false := by
  unfold find_one_by_id at h
  have hm : idMatches d oid = true :=
    @List.find?_some Doc (fun x => idMatches x oid) d coll h
  cases d with
  | nil => simp [idMatches, dGet] at hm
  | cons kv rest => rfl

/-- C3: `GET /careers/jobs/\x7bid\x7d`: a syntactically invalid id yields
400 "Invalid job id" for every store state (so no lookup can influence
the answer); a well-formed id with no matching job yields 404 "Job not
found"; a well-formed id with a matching job yields the serialized
document. -/
theorem get_job_spec (job_id : String) :
    (ObjectId_is_valid job_id = false →
      ∀ db : DB, get_job db job_id = .error ⟨400, "Invalid job id"⟩) ∧
    (∀ db : DB, ObjectId_is_valid job_id = true →
      find_one_by_id db.job job_id = none →
      get_job db job_id = .error ⟨404, "Job not found"⟩) ∧
    (∀ (db : DB) (d : Doc), ObjectId_is_valid job_id = true →
      find_one_by_id db.job job_id = some d →
      get_job db job_id = .ok (serialize_doc d)) := by
  refine ⟨fun hv db => ?_, fun db hv hf => ?_, fun db d hv hf => ?_⟩
  · simp [get_job, hv]
  · simp [get_job, hv, hf]
  · simp [get_job, hv, hf, find_one_isEmpty_false db.job job_id d hf]

/-- A store holding one job document, for exercising `get_job`. -/
def dbOneJob : DB :=
  ⟨[[("_id", BVal.oid "64d2aa0c9f1a4e2b8c3d5e6f"),
     ("title", BVal.str "Senior SEO Strategist")]], [], 1⟩

/-- Witness for C3 at concrete inputs: an invalid id, a well-formed
missing id, and the stored job's id. -/
theorem get_job_spec_witness :
    get_job dbOneJob "not-an-objectid" = .error ⟨400, "Invalid job id"⟩ ∧
    get_job dbOneJob "64d2aa0c9f1a4e2b8c3d5e70" = .error ⟨404, "Job not found"⟩ ∧
    get_job dbOneJob "64d2aa0c9f1a4e2b8c3d5e6f" =
      .ok (serialize_doc [("_id", BVal.oid "64d2aa0c9f1a4e2b8c3d5e6f"),
                          ("title", BVal.str "Senior SEO Strategist")]) :=
  ⟨(get_job_spec "not-an-objectid").1 rfl dbOneJob,
   (get_job_spec "64d2aa0c9f1a4e2b8c3d5e70").2.1 dbOneJob rfl rfl,
   (get_job_spec "64d2aa0c9f1a4e2b8c3d5e6f").2.2 dbOneJob _ rfl rfl⟩

/-! ### JSON bodies and Application schema validation -/

/-- A JSON value as produced by `request.json()`. -/
inductive JVal where
  | null : JVal
  | bool (b : Bool) : JVal
  | num (n : Int) : JVal
  | str (s : String) : JVal
  | arr (vs : List JVal) : JVal
  | obj (fs : List (String × JVal)) : JVal

/-- A JSON object. -/
abbrev JObj := List (String × JVal)

/-- Lookup in a JSON object. -/
def jGet (o : JObj) (k : String) : Option JVal :=
  match o with
  | [] => none
  | (k', v) :: rest => if k' = k then some v else jGet rest k

/-- Pydantic v1 `str` coercion: strings pass through, numbers and
booleans are rendered with Python `str`, everything else is rejected. -/
def coerceStr : JVal → Except String String
  | .str s => .ok s
  | .num n => .ok (toString n)
  | .bool true => .ok "True"
  | .bool false => .ok "False"
  | _ => .error "str type expected"

/-- A required `str` field of the `Application` schema. -/
def requiredStr (o : JObj) (field : String) : Except String String :=
  match jGet o field with
  | none => .error (field ++ ": field required")
  | some .null => .error (field ++ ": none is not an allowed value")
  | some v => coerceStr v

/-- An `Optional[str]` field of the `Application` schema. -/
def optionalStr (o : JObj) (field : String) : Except String (Option String) :=
  match jGet o field with
  | none => .ok none
  | some .null => .ok none
  | some v => (coerceStr v).map some

/-- Python `s.startswith(pre)`, computed on the character lists. -/
def strStartsWith (s pre : String) : Bool :=
  pre.toList.isPrefixOf s.toList

/-- The host portion of a URL, after the scheme. -/
def urlHost (s : String) : List Char :=
  ((if strStartsWith s "https://" then s.toList.drop 8 else s.toList.drop 7).takeWhile
    (fun c => c ≠ '/'))

/-- Pydantic v1 `HttpUrl` acceptance: http(s) scheme, a nonempty host,
and at most 2083 characters. -/
def isHttpUrl (s : String) : Bool :=
  (strStartsWith s "http://" || strStartsWith s "https://") &&
  urlHost s ≠ [] && s.length ≤ 2083

/-- An `Optional[HttpUrl]` field of the `Application` schema. -/
def optionalUrl (o : JObj) (field : String) : Except String (Option String) :=
  match jGet o field with
  | none => .ok none
  | some .null => .ok none
  | some (.str s) =>
      if isHttpUrl s then .ok (some s)
      else .error (field ++ ": invalid or missing URL scheme")
  | some _ => .error (field ++ ": str type expected")

/-- Pydantic v1 `bool` coercion. -/
def coerceBool : JVal → Except String Bool
  | .bool b => .ok b
  | .num 0 => .ok false
  | .num 1 => .ok true
  | .str s =>
      let l := s.toLower
      if l = "true" || l = "yes" || l = "on" || l = "y" || l = "t" || l = "1" then .ok true
      else if l = "false" || l = "no" || l = "off" || l = "n" || l = "f" || l = "0" then .ok false
      else .error "value could not be parsed to a boolean"
  | _ => .error "value could not be parsed to a boolean"

/-- Render an optional text value as a stored value (`None` → null). -/
def optStr : Option String → BVal
  | none => .null
  | some s => .str s

/-- Validation sequencing: stop at the first failing field. -/
def exBind (e : Except String α) (f : α → Except String β) : Except String β :=
  match e with
  | .error m => .error m
  | .ok a => f a

/-- `Application(**data).dict()` from `schemas.py` (lines 58-70):
`job_id`, `name`, `email` are required text; `phone`, `cover_letter`
optional text; `linkedin`, `portfolio` optional well-formed URLs;
`consent` a boolean defaulting to `True`. Unknown extra fields are
ignored. Produces the field mapping in schema declaration order. -/
def validateApplication (data : JObj) : Except String Doc :=
  exBind (requiredStr data "job_id") (fun job_id =>
  exBind (requiredStr data "name") (fun name =>
  exBind (requiredStr data "email") (fun email =>
  exBind (optionalStr data "phone") (fun phone =>
  exBind (optionalUrl data "linkedin") (fun linkedin =>
  exBind (optionalUrl data "portfolio") (fun portfolio =>
  exBind (optionalStr data "cover_letter") (fun cover_letter =>
  exBind (match jGet data "consent" with
          | none => Except.ok true
          | some v => coerceBool v) (fun consent =>
  Except.ok
    [("job_id", .str job_id), ("name", .str name), ("email", .str email),
     ("phone", optStr phone), ("linkedin", optStr linkedin),
     ("portfolio", optStr portfolio), ("cover_letter", optStr cover_letter),
     ("consent", .bool consent)]))))))))

/-! ### POST /careers/apply -/

/-- An uploaded file as the handler sees it: filename and declared
content type from the client (either may be absent), and the raw bytes. -/
structure UploadFile where
  filename : Option String
  content_type : Option String
  content : List Nat

/-- The optional multipart form fields of the `apply` handler
(`main.py` lines 126-135). `none` means the field was not sent. -/
structure FormFields where
  job_id : Option String
  name : Option String
  email : Option String
  phone : Option String
  linkedin : Option String
  portfolio : Option String
  cover_letter : Option String
  consent : Option Bool
  cv : Option UploadFile
  portfolio_file : Option UploadFile

/-- The form-mode payload dict literal (`main.py` lines 145-154):
all eight keys, omitted fields as `None`, and `consent` passed through
`bool(...)` with FastAPI's `Form(False)` default. -/
def formBase (f : FormFields) : Doc :=
  [("job_id", optStr f.job_id), ("name", optStr f.name), ("email", optStr f.email),
   ("phone", optStr f.phone), ("linkedin", optStr f.linkedin),
   ("portfolio", optStr f.portfolio), ("cover_letter", optStr f.cover_letter),
   ("consent", .bool (f.consent.getD false))]

/-- Metadata recorded for one uploaded file (`main.py` lines 164-169):
filename, declared content type, and the byte length of the fully read
content. The bytes themselves are dropped. -/
def fileMeta (u : UploadFile) : BVal :=
  .doc [("filename", optStr u.filename),
        ("content_type", optStr u.content_type),
        ("size", .int u.content.length)]

/-- The `files_meta` dict built by the loop over `("cv", cv)` and
`("portfolio_file", portfolio_file)`: one entry per attachment present. -/
def formFiles (f : FormFields) : Doc :=
  (match f.cv with
   | some u => [("cv", fileMeta u)]
   | none => []) ++
  (match f.portfolio_file with
   | some u => [("portfolio_file", fileMeta u)]
   | none => [])

/-- The complete form-mode payload: the eight base fields plus a
`files` mapping only when at least one attachment is present. -/
def formPayload (f : FormFields) : Doc :=
  if (formFiles f).isEmpty then formBase f
  else formBase f ++ [("files", .doc (formFiles f))]

/-- A request to `POST /careers/apply`: the `content-type` header, the
form fields FastAPI extracted, and the JSON parse of the body (`none`
when the body is not valid JSON). -/
structure ApplyRequest where
  content_type : String
  form : FormFields
  jsonBody : Option JObj

/-- The job-existence gate (`main.py` lines 156 and 180): the check runs
only when the payload's `job_id` is truthy and a syntactically valid
ObjectId; returns the id to look up in that case. -/
def validRefJobId (payload : Doc) : Option String :=
  match dGet payload "job_id" with
  | some (.str s) => if truthy (.str s) && ObjectId_is_valid s then some s else none
  | _ => none

/-- The shared tail of both submission modes (`main.py` lines 185-187):
insert the payload into `application`, re-fetch the stored document by
its new id, and serialize it for the 201 response (`None` when the
fetch finds nothing, as `serialize_doc` passes falsy input through). -/
def insertAndRespond (db : DB) (payload : Doc) : DB × Except HErr (Option Doc) :=
  let ins := create_document db "application" payload
  match find_one_by_id ins.1.application ins.2 with
  | none => (ins.1, .ok none)
  | some d => (ins.1, .ok (some (serialize_doc d)))

/-- `apply` from `main.py` (lines 123-191). Form mode is taken when the
content type indicates a form submission or a `job_id` form field is
present; otherwise the body is parsed as JSON and validated against the
`Application` schema (failures surface as 500, via the blanket
`except Exception`). Both modes gate on job existence only for a truthy,
syntactically valid `job_id`, answering 404 without inserting when the
referenced job is absent. -/
def apply (db : DB) (req : ApplyRequest) : DB × Except HErr (Option Doc) :=
  if strStartsWith req.content_type "multipart/form-data" || req.form.job_id.isSome then
    match validRefJobId (formBase req.form) with
    | some jid =>
        match find_one_by_id db.job jid with
        | none => (db, .error ⟨404, "Job not found for application"⟩)
        | some _ => insertAndRespond db (formPayload req.form)
    | none => insertAndRespond db (formPayload req.form)
  else
    match req.jsonBody with
    | none => (db, .error ⟨500, "json decode error"⟩)
    | some data =>
        match validateApplication data with
        | .error msg => (db, .error ⟨500, msg⟩)
        | .ok payload =>
            match validRefJobId payload with
            | some jid =>
                match find_one_by_id db.job jid with
                | none => (db, .error ⟨404, "Job not found for application"⟩)
                | some _ => insertAndRespond db payload
            | none => insertAndRespond db payload

/-- A JSON-mode request: JSON content type, no form fields extracted. -/
def jsonReq (data : JObj) : ApplyRequest :=
  ⟨"application/json", ⟨none, none, none, none, none, none, none, none, none, none⟩, some data⟩

/-- A form-mode request carrying the given form fields. -/
def formReq (f : FormFields) : ApplyRequest :=
  ⟨"multipart/form-data; boundary=x", f, none⟩

/-! ### POST /careers/seed -/

/-- First fixed example job of `seed_jobs` (`main.py` lines 202-220). -/
def seedExample1 : Doc :=
  [("title", .str "Senior SEO Strategist"),
   ("department", .str "Organic"),
   ("location", .str "Brighton, UK"),
   ("employment_type", .str "Full-time"),
   ("description", .str "Lead strategy across enterprise SEO accounts, collaborating with content, UX, and dev."),
   ("responsibilities", .arr
     [.str "Own SEO strategy for key clients",
      .str "Guide technical audits and roadmaps",
      .str "Mentor junior team members"]),
   ("requirements", .arr
     [.str "5+ years SEO experience",
      .str "Strong technical SEO skills",
      .str "Comfortable with stakeholder communication"]),
   ("salary_range", .str "£45k–£60k DOE"),
   ("remote", .bool true)]

/-- Second fixed example job of `seed_jobs` (`main.py` lines 221-239). -/
def seedExample2 : Doc :=
  [("title", .str "Performance Media Manager"),
   ("department", .str "Media"),
   ("location", .str "Hybrid / Brighton"),
   ("employment_type", .str "Full-time"),
   ("description", .str "Plan, launch and optimize paid search & social campaigns focused on measurable growth."),
   ("responsibilities", .arr
     [.str "Own PPC & Paid Social across channels",
      .str "Implement testing frameworks",
      .str "Report insights and iterate"]),
   ("requirements", .arr
     [.str "4+ years in performance media",
      .str "Platform certifications",
      .str "Strong analytical mindset"]),
   ("salary_range", .str "£40k–£55k DOE"),
   ("remote", .bool true)]

/-- Third fixed example job of `seed_jobs` (`main.py` lines 240-258). -/
def seedExample3 : Doc :=
  [("title", .str "Product Designer (UX/UI)"),
   ("department", .str "Creative"),
   ("location", .str "Remote (UK)"),
   ("employment_type", .str "Contract"),
   ("description", .str "Design simple, beautiful product experiences across web with accessibility in mind."),
   ("responsibilities", .arr
     [.str "Translate strategy into UX flows",
      .str "Create UI systems and prototypes",
      .str "Collaborate with dev for implementation"]),
   ("requirements", .arr
     [.str "Strong portfolio of shipped work",
      .str "Accessibility knowledge",
      .str "Proficiency in Figma"]),
   ("salary_range", .str "Competitive"),
   ("remote", .bool true)]

/-- The seed endpoint's response body. -/
inductive SeedResult where
  | notSeeded (message : String) : SeedResult
  | seeded (count : Nat) (ids : List String) : SeedResult
deriving DecidableEq

/-- `seed_jobs` from `main.py` (lines 194-265): when the `job`
collection already has documents, report `seeded: false`; otherwise
insert the three fixed examples in order and report `seeded: true` with
their count and new identifiers. -/
def seed_jobs (db : DB) : DB × SeedResult :=
  let count := db.job.length
  if count > 0 then (db, .notSeeded "Jobs already exist")
  else
    let i1 := create_document db "job" seedExample1
    let i2 := create_document i1.1 "job" seedExample2
    let i3 := create_document i2.1 "job" seedExample3
    (i3.1, .seeded 3 [i1.2, i2.2, i3.2])

/-- C7: starting from an empty job collection, the first seed call
inserts exactly the three fixed example jobs and reports `seeded: true`
with their identifiers, and a second sequential call sees the non-empty
collection, changes nothing, and reports `seeded: false` — three job
documents in total. -/
theorem seed_twice (db : DB) (h : db.job = []) :
    (seed_jobs db).2 =
      SeedResult.seeded 3
        [oidOfNat db.nextOid, oidOfNat (db.nextOid + 1), oidOfNat (db.nextOid + 2)] ∧
    (seed_jobs db).1.job =
      [("_id", BVal.oid (oidOfNat db.nextOid)) :: seedExample1,
       ("_id", BVal.oid (oidOfNat (db.nextOid + 1))) :: seedExample2,
       ("_id", BVal.oid (oidOfNat (db.nextOid + 2))) :: seedExample3] ∧
    (seed_jobs db).1.job.length = 3 ∧
    (seed_jobs db).1.application = db.application ∧
    (seed_jobs (seed_jobs db).1).2 = SeedResult.notSeeded "Jobs already exist" ∧
    (seed_jobs (seed_jobs db).1).1 = (seed_jobs db).1 := by
  have h1 : seed_jobs db =
      ({ db with
          job := [("_id", BVal.oid (oidOfNat db.nextOid)) :: seedExample1,
                  ("_id", BVal.oid (oidOfNat (db.nextOid + 1))) :: seedExample2,
                  ("_id", BVal.oid (oidOfNat (db.nextOid + 2))) :: seedExample3],
          nextOid := db.nextOid + 3 },
       SeedResult.seeded 3
         [oidOfNat db.nextOid, oidOfNat (db.nextOid + 1), oidOfNat (db.nextOid + 2)]) := by
    simp [seed_jobs, h, create_document, freshOid]
  refine ⟨by rw [h1], by rw [h1], by rw [h1]; rfl, by rw [h1], ?_, ?_⟩ <;>
    rw [h1] <;> simp [seed_jobs]

/-! ### Insert-and-respond properties -/

/-- No existing application document already carries the identifier the
store will assign next (always true of a store whose identifiers were
system-assigned; stated explicitly because the model allows arbitrary
collection contents). -/
def freshFor (db : DB) : Bool :=
  db.application.all (fun d => ! idMatches d (freshOid db))

theorem idMatches_new (oid : String) (p : Doc) :
    idMatches (("_id", BVal.oid oid) :: p) oid = true := by
  simp [idMatches, dGet]

theorem find_one_append_fresh (coll : List Doc) (oid : String) (p : Doc)
    (h : coll.all (fun d => ! idMatches d oid) = true) :
    find_one_by_id (coll ++ [("_id", BVal.oid oid) :: p]) oid =
      some (("_id", BVal.oid oid) :: p) := by
  induction coll with
  | nil => simp [find_one_by_id, List.find?, idMatches_new]
  | cons x rest ih =>
      simp only [List.all_cons, Bool.and_eq_true, Bool.not_eq_true'] at h
      simp only [find_one_by_id, List.cons_append, List.find?, h.1] at ih ⊢
      exact ih h.2

/-- The state effect of `insertAndRespond`: exactly one new application
document, the payload under a fresh `_id`; the job collection and the
response-independent parts are untouched. -/
theorem insertAndRespond_state (db : DB) (p : Doc) :
    (insertAndRespond db p).1.application =
      db.application ++ [("_id", BVal.oid (freshOid db)) :: p] ∧
    (insertAndRespond db p).1.job = db.job ∧
    ∃ r, (insertAndRespond db p).2 = Except.ok r := by
  unfold insertAndRespond create_document
  rw [if_neg (by decide), if_pos rfl]
  cases hf : find_one_by_id (db.application ++ [("_id", BVal.oid (freshOid db)) :: p])
      (freshOid db) <;> simp [hf]

/-- Under freshness, the post-insert fetch finds the new document, so
the 201 body is its serialization. -/
theorem insertAndRespond_fresh (db : DB) (p : Doc) (h : freshFor db = true) :
    insertAndRespond db p =
      ({ db with
          application := db.application ++ [("_id", BVal.oid (freshOid db)) :: p],
          nextOid := db.nextOid + 1 },
       Except.ok (some (serialize_doc (("_id", BVal.oid (freshOid db)) :: p)))) := by
  unfold insertAndRespond create_document
  rw [if_neg (by decide), if_pos rfl]
  dsimp only
  rw [find_one_append_fresh db.application (freshOid db) p h]

/-- Every run of `apply` either answers an error with the store
untouched, or hands one payload to the insert step. -/
theorem apply_cases (db : DB) (req : ApplyRequest) :
    (∃ e, apply db req = (db, Except.error e)) ∨
    (∃ p, apply db req = insertAndRespond db p) := by
  unfold apply
  repeat' split
  all_goals first
    | exact Or.inl ⟨_, rfl⟩
    | exact Or.inr ⟨_, rfl⟩

/-- C6: application submission is atomic on the application collection:
an error response leaves the store exactly as it was, and a success
response corresponds to exactly one appended application document whose
serialization is the response body; the job collection is never touched. -/
theorem apply_atomic (db : DB) (req : ApplyRequest) (h : freshFor db = true) :
    (∀ e, (apply db req).2 = Except.error e → (apply db req).1 = db) ∧
    (∀ r, (apply db req).2 = Except.ok r →
      ∃ p, (apply db req).1.job = db.job ∧
        (apply db req).1.application =
          db.application ++ [("_id", BVal.oid (freshOid db)) :: p] ∧
        r = some (serialize_doc (("_id", BVal.oid (freshOid db)) :: p))) := by
  rcases apply_cases db req with ⟨e, he⟩ | ⟨p, hp⟩
  · rw [he]
    exact ⟨fun e' h' => rfl, fun r h' => by simp at h'⟩
  · rw [hp, insertAndRespond_fresh db p h]
    refine ⟨fun e' h' => by simp at h', fun r h' => ⟨p, rfl, rfl, ?_⟩⟩
    simpa using h'.symm

/-- The empty store. -/
def dbEmpty : DB := ⟨[], [], 0⟩

/-- A form submission with every field omitted. -/
def emptyForm : FormFields :=
  ⟨none, none, none, none, none, none, none, none, none, none⟩

set_option maxRecDepth 4000 in
/-- Witness for C6: a concrete successful form submission against the
empty store appends exactly one document and answers with its
serialization. -/
theorem apply_atomic_witness :
    ∃ p, (apply dbEmpty (formReq emptyForm)).1.job = dbEmpty.job ∧
      (apply dbEmpty (formReq emptyForm)).1.application =
        dbEmpty.application ++ [("_id", BVal.oid (freshOid dbEmpty)) :: p] ∧
      some (serialize_doc (("_id", BVal.oid (freshOid dbEmpty)) :: formPayload emptyForm)) =
        some (serialize_doc (("_id", BVal.oid (freshOid dbEmpty)) :: p)) :=
  (apply_atomic dbEmpty (formReq emptyForm) rfl).2
    (some (serialize_doc (("_id", BVal.oid (freshOid dbEmpty)) :: formPayload emptyForm))) rfl

/-! ### Mode-specific reductions of the apply handler -/

/-- A multipart request always takes the form branch. -/
theorem apply_formReq (db : DB) (f : FormFields) :
    apply db (formReq f) =
      match validRefJobId (formBase f) with
      | some jid =>
          match find_one_by_id db.job jid with
          | none => (db, .error ⟨404, "Job not found for application"⟩)
          | some _ => insertAndRespond db (formPayload f)
      | none => insertAndRespond db (formPayload f) := rfl

/-- A JSON request with no form fields takes the JSON branch. -/
theorem apply_jsonReq (db : DB) (data : JObj) :
    apply db (jsonReq data) =
      match validateApplication data with
      | .error msg => (db, .error ⟨500, msg⟩)
      | .ok payload =>
          match validRefJobId payload with
          | some jid =>
              match find_one_by_id db.job jid with
              | none => (db, .error ⟨404, "Job not found for application"⟩)
              | some _ => insertAndRespond db payload
          | none => insertAndRespond db payload := rfl

theorem validRef_formBase_none (f : FormFields) (h : f.job_id = none) :
    validRefJobId (formBase f) = none := by
  simp [validRefJobId, formBase, dGet, h, optStr]

theorem validRef_formBase_skip (f : FormFields) (s : String) (h : f.job_id = some s)
    (hs : s = "" ∨ ObjectId_is_valid s = false) :
    validRefJobId (formBase f) = none := by
  rcases hs with hs | hs <;>
    simp [validRefJobId, formBase, dGet, h, optStr, truthy, hs]

theorem validRef_formBase_some (f : FormFields) (s : String) (h : f.job_id = some s)
    (hs : s ≠ "") (hv : ObjectId_is_valid s = true) :
    validRefJobId (formBase f) = some s := by
  simp [validRefJobId, formBase, dGet, h, optStr, truthy, hs, hv]

theorem validRef_payload_skip (p : Doc) (s : String)
    (h : dGet p "job_id" = some (BVal.str s))
    (hs : s = "" ∨ ObjectId_is_valid s = false) :
    validRefJobId p = none := by
  rcases hs with hs | hs <;> simp [validRefJobId, h, truthy, hs]

theorem validRef_payload_some (p : Doc) (s : String)
    (h : dGet p "job_id" = some (BVal.str s))
    (hs : s ≠ "") (hv : ObjectId_is_valid s = true) :
    validRefJobId p = some s := by
  simp [validRefJobId, h, truthy, hs, hv]

theorem valid_oid_ne_empty (s : String) (hv : ObjectId_is_valid s = true) : s ≠ "" := by
  intro h
  subst h
  simp [ObjectId_is_valid] at hv

/-! ### C4: job-existence gating -/

/-- A JSON application body that omits `job_id` entirely. -/
def appDataNoJobId : JObj :=
  [("name", .str "Ada Lovelace"), ("email", .str "ada@example.com")]

/-- C4 counterexample: in JSON mode a submission with `job_id` missing is
*rejected* by Application-schema validation (500, nothing inserted, even
though a job exists), contradicting the claim that a missing `job_id`
always leads to acceptance regardless of job existence. -/
theorem apply_json_missing_job_id_rejected :
    apply dbOneJob (jsonReq appDataNoJobId) =
      (dbOneJob, Except.error ⟨500, "job_id: field required"⟩) := rfl

/-- C4 (amended): an insert hand-off always appends exactly one document
and answers 201. In form mode, a missing, empty, or invalid-shape
`job_id` skips the existence check and the submission is accepted; a
well-formed unknown `job_id` yields 404 with no insert; a `job_id` of an
existing job is accepted. In JSON mode the same gating holds for bodies
passing Application-schema validation, but schema-invalid bodies
(including any with `job_id` missing) are rejected with 500 and no
insert. -/
theorem apply_job_gating (db : DB) :
    (∀ p : Doc,
      (insertAndRespond db p).1.application =
        db.application ++ [("_id", BVal.oid (freshOid db)) :: p] ∧
      ∃ r, (insertAndRespond db p).2 = Except.ok r) ∧
    (∀ f : FormFields,
      (f.job_id = none ∨ f.job_id = some "" ∨
        (∃ s, f.job_id = some s ∧ ObjectId_is_valid s = false)) →
      apply db (formReq f) = insertAndRespond db (formPayload f)) ∧
    (∀ (f : FormFields) (s : String), f.job_id = some s →
      ObjectId_is_valid s = true → find_one_by_id db.job s = none →
      apply db (formReq f) = (db, Except.error ⟨404, "Job not found for application"⟩)) ∧
    (∀ (f : FormFields) (s : String) (j : Doc), f.job_id = some s →
      ObjectId_is_valid s = true → find_one_by_id db.job s = some j →
      apply db (formReq f) = insertAndRespond db (formPayload f)) ∧
    (∀ (data : JObj) (msg : String), validateApplication data = .error msg →
      apply db (jsonReq data) = (db, Except.error ⟨500, msg⟩)) ∧
    (∀ (data : JObj) (payload : Doc) (s : String),
      validateApplication data = .ok payload →
      dGet payload "job_id" = some (BVal.str s) →
      (s = "" ∨ ObjectId_is_valid s = false) →
      apply db (jsonReq data) = insertAndRespond db payload) ∧
    (∀ (data : JObj) (payload : Doc) (s : String),
      validateApplication data = .ok payload →
      dGet payload "job_id" = some (BVal.str s) →
      ObjectId_is_valid s = true → find_one_by_id db.job s = none →
      apply db (jsonReq data) = (db, Except.error ⟨404, "Job not found for application"⟩)) ∧
    (∀ (data : JObj) (payload : Doc) (s : String) (j : Doc),
      validateApplication data = .ok payload →
      dGet payload "job_id" = some (BVal.str s) →
      ObjectId_is_valid s = true → find_one_by_id db.job s = some j →
      apply db (jsonReq data) = insertAndRespond db payload) := by
  refine ⟨fun p => ⟨(insertAndRespond_state db p).1, (insertAndRespond_state db p).2.2⟩,
    fun f hf => ?_, fun f s hf hv hfind => ?_, fun f s j hf hv hfind => ?_,
    fun data msg hval => ?_, fun data payload s hval hget hs => ?_,
    fun data payload s hval hget hv hfind => ?_,
    fun data payload s j hval hget hv hfind => ?_⟩
  · rw [apply_formReq]
    rcases hf with h | h | ⟨s, h, hv⟩
    · rw [validRef_formBase_none f h]
    · rw [validRef_formBase_skip f "" h (Or.inl rfl)]
    · rw [validRef_formBase_skip f s h (Or.inr hv)]
  · rw [apply_formReq, validRef_formBase_some f s hf (valid_oid_ne_empty s hv) hv]
    dsimp only
    rw [hfind]
  · rw [apply_formReq, validRef_formBase_some f s hf (valid_oid_ne_empty s hv) hv]
    dsimp only
    rw [hfind]
  · rw [apply_jsonReq, hval]
  · rw [apply_jsonReq, hval]
    dsimp only
    rw [validRef_payload_skip payload s hget hs]
  · rw [apply_jsonReq, hval]
    dsimp only
    rw [validRef_payload_some payload s hget (valid_oid_ne_empty s hv) hv]
    dsimp only
    rw [hfind]
  · rw [apply_jsonReq, hval]
    dsimp only
    rw [validRef_payload_some payload s hget (valid_oid_ne_empty s hv) hv]
    dsimp only
    rw [hfind]

/-- Form fields with only `job_id` (an invalid identifier shape). -/
def fInvalidJob : FormFields :=
  ⟨some "abc", none, none, none, none, none, none, none, none, none⟩

/-- Form fields whose `job_id` is well-formed but matches no job. -/
def fUnknownJob : FormFields :=
  ⟨some "64d2aa0c9f1a4e2b8c3d5e70", none, none, none, none, none, none, none, none, none⟩

/-- Form fields whose `job_id` is the stored job's identifier. -/
def fKnownJob : FormFields :=
  ⟨some "64d2aa0c9f1a4e2b8c3d5e6f", none, none, none, none, none, none, none, none, none⟩

/-- A JSON application body referencing the given job id. -/
def appData (jid : String) : JObj :=
  [("job_id", .str jid), ("name", .str "Ada Lovelace"), ("email", .str "ada@example.com")]

/-- The validated payload for `appData`. -/
def appPayload (jid : String) : Doc :=
  [("job_id", .str jid), ("name", .str "Ada Lovelace"), ("email", .str "ada@example.com"),
   ("phone", .null), ("linkedin", .null), ("portfolio", .null),
   ("cover_letter", .null), ("consent", .bool true)]

/-- Witness for the amended C4 at concrete inputs, one per clause of the
gating contract, against a store holding one job. -/
theorem apply_job_gating_witness :
    ((insertAndRespond dbOneJob (appPayload "abc")).1.application =
        dbOneJob.application ++
          [("_id", BVal.oid (freshOid dbOneJob)) :: appPayload "abc"] ∧
      ∃ r, (insertAndRespond dbOneJob (appPayload "abc")).2 = Except.ok r) ∧
    apply dbOneJob (formReq fInvalidJob) =
      insertAndRespond dbOneJob (formPayload fInvalidJob) ∧
    apply dbOneJob (formReq fUnknownJob) =
      (dbOneJob, Except.error ⟨404, "Job not found for application"⟩) ∧
    apply dbOneJob (formReq fKnownJob) =
      insertAndRespond dbOneJob (formPayload fKnownJob) ∧
    apply dbOneJob (jsonReq appDataNoJobId) =
      (dbOneJob, Except.error ⟨500, "job_id: field required"⟩) ∧
    apply dbOneJob (jsonReq (appData "")) =
      insertAndRespond dbOneJob (appPayload "") ∧
    apply dbOneJob (jsonReq (appData "64d2aa0c9f1a4e2b8c3d5e70")) =
      (dbOneJob, Except.error ⟨404, "Job not found for application"⟩) ∧
    apply dbOneJob (jsonReq (appData "64d2aa0c9f1a4e2b8c3d5e6f")) =
      insertAndRespond dbOneJob (appPayload "64d2aa0c9f1a4e2b8c3d5e6f") :=
  ⟨(apply_job_gating dbOneJob).1 (appPayload "abc"),
   (apply_job_gating dbOneJob).2.1 fInvalidJob (Or.inr (Or.inr ⟨"abc", rfl, rfl⟩)),
   (apply_job_gating dbOneJob).2.2.1 fUnknownJob "64d2aa0c9f1a4e2b8c3d5e70" rfl rfl rfl,
   (apply_job_gating dbOneJob).2.2.2.1 fKnownJob "64d2aa0c9f1a4e2b8c3d5e6f" _ rfl rfl rfl,
   (apply_job_gating dbOneJob).2.2.2.2.1 appDataNoJobId "job_id: field required" rfl,
   (apply_job_gating dbOneJob).2.2.2.2.2.1 (appData "") (appPayload "") "" rfl rfl (Or.inl rfl),
   (apply_job_gating dbOneJob).2.2.2.2.2.2.1 (appData "64d2aa0c9f1a4e2b8c3d5e70")
     (appPayload "64d2aa0c9f1a4e2b8c3d5e70") "64d2aa0c9f1a4e2b8c3d5e70" rfl rfl rfl rfl,
   (apply_job_gating dbOneJob).2.2.2.2.2.2.2 (appData "64d2aa0c9f1a4e2b8c3d5e6f")
     (appPayload "64d2aa0c9f1a4e2b8c3d5e6f") "64d2aa0c9f1a4e2b8c3d5e6f" _ rfl rfl rfl rfl⟩

/-! ### C5: the dual-mode validation gap -/

/-- Applicant form data with the required `name` omitted. -/
def formNoName : FormFields :=
  ⟨some "abc", none, some "ada@example.com", none, none, none, none, none, none, none⟩

/-- The same applicant data as a JSON body (no `name`). -/
def appDataNoName : JObj :=
  [("job_id", .str "abc"), ("email", .str "ada@example.com")]

/-- C5: the same applicant data missing the required `name` is accepted
by the form path (201, exactly one document stored, its `name` null)
but rejected by the JSON path, whose Application-schema validation
fails on the missing field. -/
theorem apply_dual_mode_gap :
    (apply dbEmpty (formReq formNoName)).2 =
      Except.ok (some (serialize_doc
        (("_id", BVal.oid (freshOid dbEmpty)) :: formPayload formNoName))) ∧
    (apply dbEmpty (formReq formNoName)).1.application =
      [("_id", BVal.oid (freshOid dbEmpty)) :: formPayload formNoName] ∧
    dGet (formPayload formNoName) "name" = some BVal.null ∧
    validateApplication appDataNoName = Except.error "name: field required" ∧
    apply dbEmpty (jsonReq appDataNoName) =
      (dbEmpty, Except.error ⟨500, "name: field required"⟩) :=
  ⟨rfl, rfl, rfl, rfl, rfl⟩

/-! ### Success-state inversion for apply -/

theorem dGet_append_right (d1 d2 : Doc) (k : String) (h : dGet d1 k = none) :
    dGet (d1 ++ d2) k = dGet d2 k := by
  induction d1 with
  | nil => rfl
  | cons kv rest ih =>
      by_cases hk : kv.1 = k
      · simp [dGet, hk] at h
      · simp only [dGet, hk, if_neg, List.cons_append] at h ⊢
        simp [hk]
        exact ih h

theorem dGet_append_left (d1 d2 : Doc) (k : String) (v : BVal)
    (h : dGet d1 k = some v) : dGet (d1 ++ d2) k = some v := by
  induction d1 with
  | nil => simp [dGet] at h
  | cons kv rest ih =>
      by_cases hk : kv.1 = k <;> simp_all [dGet, hk]

/-- A successful form-mode submission appended exactly the form payload
under the fresh identifier. -/
theorem apply_form_success (db : DB) (f : FormFields) (db' : DB) (r : Option Doc)
    (h : apply db (formReq f) = (db', Except.ok r)) :
    db'.application = db.application ++ [("_id", BVal.oid (freshOid db)) :: formPayload f] := by
  rw [apply_formReq] at h
  split at h
  · split at h
    · simp [Prod.ext_iff] at h
    · have h1 := congrArg Prod.fst h
      dsimp at h1
      rw [← h1]
      exact (insertAndRespond_state db (formPayload f)).1
  · have h1 := congrArg Prod.fst h
    dsimp at h1
    rw [← h1]
    exact (insertAndRespond_state db (formPayload f)).1

/-- A successful JSON-mode submission appended exactly the validated
payload under the fresh identifier. -/
theorem apply_json_success (db : DB) (data : JObj) (db' : DB) (r : Option Doc)
    (h : apply db (jsonReq data) = (db', Except.ok r)) :
    ∃ payload, validateApplication data = Except.ok payload ∧
      db'.application = db.application ++ [("_id", BVal.oid (freshOid db)) :: payload] := by
  rw [apply_jsonReq] at h
  split at h
  · simp [Prod.ext_iff] at h
  · rename_i payload hval
    refine ⟨payload, hval, ?_⟩
    split at h
    · split at h
      · simp [Prod.ext_iff] at h
      · have h1 := congrArg Prod.fst h
        dsimp at h1
        rw [← h1]
        exact (insertAndRespond_state db payload).1
    · have h1 := congrArg Prod.fst h
      dsimp at h1
      rw [← h1]
      exact (insertAndRespond_state db payload).1

/-! ### Raw-bytes detection -/

mutual
/-- Does this value contain a raw byte string at any nesting depth? -/
def hasBytesDeep : BVal → Bool
  | .bytes _ => true
  | .arr vs => hasBytesDeepSeq vs
  | .doc fs => hasBytesDeepFields fs
  | _ => false

/-- Does any element of the list contain raw bytes? -/
def hasBytesDeepSeq : List BVal → Bool
  | [] => false
  | v :: rest => hasBytesDeep v || hasBytesDeepSeq rest

/-- Does any entry of the field list contain raw bytes? -/
def hasBytesDeepFields : List (String × BVal) → Bool
  | [] => false
  | (_, v) :: rest => hasBytesDeep v || hasBytesDeepFields rest
end

theorem hasBytes_optStr (o : Option String) : hasBytesDeep (optStr o) = false := by
  cases o <;> rfl

theorem hasBytes_fileMeta (u : UploadFile) : hasBytesDeep (fileMeta u) = false := by
  simp [fileMeta, hasBytesDeep, hasBytesDeepFields, hasBytes_optStr]

/-- Nothing a form submission stores — base fields, file metadata, or
the assigned identifier — contains raw file bytes. -/
theorem stored_form_no_bytes (oid : String) (f : FormFields) :
    hasBytesDeepFields (("_id", BVal.oid oid) :: formPayload f) = false := by
  unfold formPayload formFiles formBase
  cases hcv : f.cv <;> cases hpf : f.portfolio_file <;>
    simp [hasBytesDeepFields, hasBytesDeep, hasBytes_optStr, fileMeta]

/-- Lift a binding visible in the base fields to the full payload. -/
theorem dGet_formPayload_of_base (f : FormFields) (k : String) (v : BVal)
    (h : dGet (formBase f) k = some v) : dGet (formPayload f) k = some v := by
  unfold formPayload
  by_cases he : (formFiles f).isEmpty
  · rw [if_pos he]
    exact h
  · rw [if_neg he]
    exact dGet_append_left _ _ _ _ h

/-! ### C8: file metadata capture -/

/-- C8: a successful form submission stores exactly the form payload;
when a `cv` (resp. `portfolio_file`) attachment of N bytes is present,
the stored payload's `files.cv` (resp. `files.portfolio_file`) holds
its filename, declared content type, and size N; entries exist only for
attachments actually present (no `files` field at all when there are
none); and no raw file bytes occur anywhere in the stored document. -/
theorem apply_form_file_metadata (db : DB) (f : FormFields) (db' : DB) (r : Option Doc)
    (h : apply db (formReq f) = (db', Except.ok r)) :
    db'.application = db.application ++ [("_id", BVal.oid (freshOid db)) :: formPayload f] ∧
    (∀ u, f.cv = some u →
      ∃ files, dGet (formPayload f) "files" = some (.doc files) ∧
        dGet files "cv" = some (.doc
          [("filename", optStr u.filename),
           ("content_type", optStr u.content_type),
           ("size", .int u.content.length)])) ∧
    (∀ u, f.portfolio_file = some u →
      ∃ files, dGet (formPayload f) "files" = some (.doc files) ∧
        dGet files "portfolio_file" = some (.doc
          [("filename", optStr u.filename),
           ("content_type", optStr u.content_type),
           ("size", .int u.content.length)])) ∧
    (f.cv = none → f.portfolio_file = none → dGet (formPayload f) "files" = none) ∧
    (f.cv = none → ∀ files, dGet (formPayload f) "files" = some (.doc files) →
      dGet files "cv" = none) ∧
    (f.portfolio_file = none → ∀ files, dGet (formPayload f) "files" = some (.doc files) →
      dGet files "portfolio_file" = none) ∧
    hasBytesDeepFields (("_id", BVal.oid (freshOid db)) :: formPayload f) = false := by
  refine ⟨apply_form_success db f db' r h, ?_, ?_, ?_, ?_, ?_,
    stored_form_no_bytes (freshOid db) f⟩
  · intro u hu
    cases hpf : f.portfolio_file with
    | none =>
        have hfl : formPayload f = formBase f ++ [("files", BVal.doc [("cv", fileMeta u)])] := by
          simp [formPayload, formFiles, hu, hpf]
        refine ⟨[("cv", fileMeta u)], ?_, rfl⟩
        rw [hfl, dGet_append_right (formBase f) _ "files" rfl]
        rfl
    | some w =>
        have hfl : formPayload f = formBase f ++
            [("files", BVal.doc [("cv", fileMeta u), ("portfolio_file", fileMeta w)])] := by
          simp [formPayload, formFiles, hu, hpf]
        refine ⟨[("cv", fileMeta u), ("portfolio_file", fileMeta w)], ?_, rfl⟩
        rw [hfl, dGet_append_right (formBase f) _ "files" rfl]
        rfl
  · intro u hu
    cases hcv : f.cv with
    | none =>
        have hfl : formPayload f = formBase f ++
            [("files", BVal.doc [("portfolio_file", fileMeta u)])] := by
          simp [formPayload, formFiles, hu, hcv]
        refine ⟨[("portfolio_file", fileMeta u)], ?_, rfl⟩
        rw [hfl, dGet_append_right (formBase f) _ "files" rfl]
        rfl
    | some w =>
        have hfl : formPayload f = formBase f ++
            [("files", BVal.doc [("cv", fileMeta w), ("portfolio_file", fileMeta u)])] := by
          simp [formPayload, formFiles, hu, hcv]
        refine ⟨[("cv", fileMeta w), ("portfolio_file", fileMeta u)], ?_, rfl⟩
        rw [hfl, dGet_append_right (formBase f) _ "files" rfl]
        rfl
  · intro hcv hpf
    have hfl : formPayload f = formBase f := by
      simp [formPayload, formFiles, hcv, hpf]
    rw [hfl]
    rfl
  · intro hcv files hfl
    cases hpf : f.portfolio_file with
    | none =>
        rw [show formPayload f = formBase f from by
          simp [formPayload, formFiles, hcv, hpf]] at hfl
        simp [formBase, dGet] at hfl
    | some w =>
        rw [show formPayload f = formBase f ++
              [("files", BVal.doc [("portfolio_file", fileMeta w)])] from by
            simp [formPayload, formFiles, hcv, hpf],
          dGet_append_right (formBase f) _ "files" rfl] at hfl
        simp [dGet] at hfl
        subst hfl
        rfl
  · intro hpf files hfl
    cases hcv : f.cv with
    | none =>
        rw [show formPayload f = formBase f from by
          simp [formPayload, formFiles, hcv, hpf]] at hfl
        simp [formBase, dGet] at hfl
    | some w =>
        rw [show formPayload f = formBase f ++
              [("files", BVal.doc [("cv", fileMeta w)])] from by
            simp [formPayload, formFiles, hcv, hpf],
          dGet_append_right (formBase f) _ "files" rfl] at hfl
        simp [dGet] at hfl
        subst hfl
        rfl

/-- A five-byte CV attachment. -/
def cvFile : UploadFile := ⟨some "cv.pdf", some "application/pdf", [37, 80, 68, 70, 45]⟩

/-- A form submission with a `cv` attachment and no `portfolio_file`. -/
def fWithCv : FormFields :=
  ⟨none, some "Ada Lovelace", some "ada@example.com", none, none, none, none,
   some true, some cvFile, none⟩

set_option maxRecDepth 4000 in
/-- Witness for C8: a concrete submission with a 5-byte `cv` stores
`files.cv.size = 5`, no `portfolio_file` entry, and no raw bytes. -/
theorem apply_form_file_metadata_witness :
    (apply dbEmpty (formReq fWithCv)).1.application =
      dbEmpty.application ++ [("_id", BVal.oid (freshOid dbEmpty)) :: formPayload fWithCv] ∧
    (∃ files, dGet (formPayload fWithCv) "files" = some (.doc files) ∧
      dGet files "cv" = some (.doc
        [("filename", optStr cvFile.filename),
         ("content_type", optStr cvFile.content_type),
         ("size", .int cvFile.content.length)])) ∧
    hasBytesDeepFields (("_id", BVal.oid (freshOid dbEmpty)) :: formPayload fWithCv) = false :=
  (fun T => ⟨T.1, T.2.1 cvFile rfl, T.2.2.2.2.2.2⟩)
    (apply_form_file_metadata dbEmpty fWithCv (apply dbEmpty (formReq fWithCv)).1
      (some (serialize_doc (("_id", BVal.oid (freshOid dbEmpty)) :: formPayload fWithCv))) rfl)

/-! ### C9: consent defaults by path -/

theorem validate_consent_default (data : JObj) (payload : Doc)
    (hc : jGet data "consent" = none)
    (h : validateApplication data = Except.ok payload) :
    dGet payload "consent" = some (BVal.bool true) := by
  unfold validateApplication exBind at h
  rw [hc] at h
  dsimp only at h
  repeat' split at h
  all_goals injection h
  rename_i h2
  subst h2
  rfl

theorem formPayload_consent (f : FormFields) :
    dGet (formPayload f) "consent" = some (BVal.bool (f.consent.getD false)) :=
  dGet_formPayload_of_base f "consent" _ rfl

/-- C9: with `consent` omitted, a successful JSON submission stores
`consent = true` (the schema default), while a successful form
submission stores `consent = false`. -/
theorem apply_consent_defaults :
    (∀ (db : DB) (data : JObj) (db' : DB) (r : Option Doc),
      jGet data "consent" = none →
      apply db (jsonReq data) = (db', Except.ok r) →
      ∃ p, validateApplication data = Except.ok p ∧
        db'.application = db.application ++ [("_id", BVal.oid (freshOid db)) :: p] ∧
        dGet p "consent" = some (BVal.bool true)) ∧
    (∀ (db : DB) (f : FormFields) (db' : DB) (r : Option Doc),
      f.consent = none →
      apply db (formReq f) = (db', Except.ok r) →
      db'.application = db.application ++ [("_id", BVal.oid (freshOid db)) :: formPayload f] ∧
      dGet (formPayload f) "consent" = some (BVal.bool false)) := by
  constructor
  · intro db data db' r hc h
    obtain ⟨p, hval, happ⟩ := apply_json_success db data db' r h
    exact ⟨p, hval, happ, validate_consent_default data p hc hval⟩
  · intro db f db' r hc h
    refine ⟨apply_form_success db f db' r h, ?_⟩
    rw [formPayload_consent f, hc]
    rfl

set_option maxRecDepth 4000 in
/-- Witness for C9: concrete consent-omitting submissions through each
path against the empty store. -/
theorem apply_consent_defaults_witness :
    (∃ p, validateApplication (appData "abc") = Except.ok p ∧
      (apply dbEmpty (jsonReq (appData "abc"))).1.application =
        dbEmpty.application ++ [("_id", BVal.oid (freshOid dbEmpty)) :: p] ∧
      dGet p "consent" = some (BVal.bool true)) ∧
    ((apply dbEmpty (formReq emptyForm)).1.application =
        dbEmpty.application ++ [("_id", BVal.oid (freshOid dbEmpty)) :: formPayload emptyForm] ∧
      dGet (formPayload emptyForm) "consent" = some (BVal.bool false)) :=
  ⟨apply_consent_defaults.1 dbEmpty (appData "abc") (apply dbEmpty (jsonReq (appData "abc"))).1
      (some (serialize_doc (("_id", BVal.oid (freshOid dbEmpty)) :: appPayload "abc"))) rfl rfl,
   apply_consent_defaults.2 dbEmpty emptyForm (apply dbEmpty (formReq emptyForm)).1
      (some (serialize_doc (("_id", BVal.oid (freshOid dbEmpty)) :: formPayload emptyForm))) rfl rfl⟩

/-! ### C10: the eight-key form payload -/

/-- C10 counterexample: with every form field omitted, the stored value
under `consent` is the boolean `false`, not an explicit null — so it is
not the case that every omitted form field is stored as null. -/
theorem form_payload_consent_not_null :
    emptyForm.consent = none ∧
    dGet (formPayload emptyForm) "consent" = some (BVal.bool false) ∧
    some (BVal.bool false) ≠ some BVal.null :=
  ⟨rfl, rfl, fun h => BVal.noConfusion (Option.some.inj h)⟩

/-- C10 (amended): the payload handed to the insert step in form mode
always contains all eight field keys; the seven optional text fields
are stored as explicit nulls when omitted (`optStr none = null`), while
`consent` is always stored as a boolean, `false` when omitted. -/
theorem form_payload_eight_keys (f : FormFields) :
    (∀ (db db' : DB) (r : Option Doc),
      apply db (formReq f) = (db', Except.ok r) →
      db'.application = db.application ++ [("_id", BVal.oid (freshOid db)) :: formPayload f]) ∧
    dGet (formPayload f) "job_id" = some (optStr f.job_id) ∧
    dGet (formPayload f) "name" = some (optStr f.name) ∧
    dGet (formPayload f) "email" = some (optStr f.email) ∧
    dGet (formPayload f) "phone" = some (optStr f.phone) ∧
    dGet (formPayload f) "linkedin" = some (optStr f.linkedin) ∧
    dGet (formPayload f) "portfolio" = some (optStr f.portfolio) ∧
    dGet (formPayload f) "cover_letter" = some (optStr f.cover_letter) ∧
    dGet (formPayload f) "consent" = some (BVal.bool (f.consent.getD false)) ∧
    optStr none = BVal.null :=
  ⟨fun db db' r h => apply_form_success db f db' r h,
   dGet_formPayload_of_base f "job_id" _ rfl,
   dGet_formPayload_of_base f "name" _ rfl,
   dGet_formPayload_of_base f "email" _ rfl,
   dGet_formPayload_of_base f "phone" _ rfl,
   dGet_formPayload_of_base f "linkedin" _ rfl,
   dGet_formPayload_of_base f "portfolio" _ rfl,
   dGet_formPayload_of_base f "cover_letter" _ rfl,
   dGet_formPayload_of_base f "consent" _ rfl,
   rfl⟩

set_option maxRecDepth 4000 in
/-- Witness for the amended C10 at a concrete form submission. -/
theorem form_payload_eight_keys_witness :
    (apply dbEmpty (formReq fInvalidJob)).1.application =
      dbEmpty.application ++ [("_id", BVal.oid (freshOid dbEmpty)) :: formPayload fInvalidJob] ∧
    dGet (formPayload fInvalidJob) "name" = some (optStr none) :=
  ⟨(form_payload_eight_keys fInvalidJob).1 dbEmpty (apply dbEmpty (formReq fInvalidJob)).1
      (some (serialize_doc (("_id", BVal.oid (freshOid dbEmpty)) :: formPayload fInvalidJob))) rfl,
   (form_payload_eight_keys fInvalidJob).2.2.1⟩

/-- Witness for C7 from the completely empty store. -/
theorem seed_twice_witness :
    (⟨[], [], 0⟩ : DB).job = [] ∧
    (seed_jobs ⟨[], [], 0⟩).2 =
      SeedResult.seeded 3 [oidOfNat 0, oidOfNat 1, oidOfNat 2] ∧
    (seed_jobs (seed_jobs ⟨[], [], 0⟩).1).2 =
      SeedResult.notSeeded "Jobs already exist" :=
  ⟨rfl, (seed_twice ⟨[], [], 0⟩ rfl).1,
   (seed_twice ⟨[], [], 0⟩ rfl).2.2.2.2.1⟩
